import Mathlib

/-
Verification of the user-state and statistics store of the Telegram
download bot (src/main.py). The JSON file bot_data.json is the single
persisted artifact; every operation is load, mutate, save. Timestamps
are abstracted as natural numbers; the Python dict keyed by str(user_id)
is modelled as an association list keyed by the numeric id (str is
injective on ids, and Python dicts keep insertion order, as the
association list does).
-/

namespace BotStore

/-- UserRecord models one value of the users mapping of bot_data.json,
as created in set_user_lang (src/main.py lines 133-137). -/
structure UserRecord where
  first_seen : Nat
  lang : String
  download_count : Nat
deriving DecidableEq

/-- GlobalStats models the global_stats object of bot_data.json with its
two counters ar_downloads and en_downloads (src/main.py lines 112-115). -/
structure GlobalStats where
  ar_downloads : Nat
  en_downloads : Nat
deriving DecidableEq

/-- SystemInfo models the system object of bot_data.json
(src/main.py lines 108-111). -/
structure SystemInfo where
  version : String
  start_date : Nat
deriving DecidableEq

/-- Users models the users mapping: an association list keyed by user id,
in insertion order, keys unique along reachable states. -/
abbrev Users := List (Nat × UserRecord)

/-- Store models the full in-memory content of bot_data.json. -/
structure Store where
  users : Users
  system : SystemInfo
  global_stats : GlobalStats
deriving DecidableEq

/-- usersFind models the Python dict lookup data["users"].get(str(uid)). -/
def usersFind : Users → Nat → Option UserRecord
  | [], _ => none
  | (k, r) :: rest, uid => if k = uid then some r else usersFind rest uid

/-- RawData is the parsed JSON object as load_data sees it before the key
check: the global_stats key may be absent (src/main.py lines 101-103). -/
structure RawData where
  users : Users
  system : SystemInfo
  global_stats : Option GlobalStats
deriving DecidableEq

/-- PersistedFile models the state of bot_data.json on disk: absent
(FileNotFoundError), present but not decodable as JSON (JSONDecodeError),
or decodable with content d. -/
inductive PersistedFile where
  | missing
  | corrupt
  | dataFile (d : RawData)
deriving DecidableEq

/-- initial_data is the fresh default state built by load_data when the
file is absent or corrupt (src/main.py lines 106-117); now is the
timestamp taken for start_date. -/
def initial_data (now : Nat) : Store :=
  { users := [],
    system := { version := "3.1", start_date := now },
    global_stats := { ar_downloads := 0, en_downloads := 0 } }

/-- load_data embeds src/main.py lines 96-117: read the JSON file, default
the global_stats key when it is absent, and fall back to the fresh default
state on FileNotFoundError or JSONDecodeError. -/
def load_data (f : PersistedFile) (now : Nat) : Store :=
  match f with
  | .missing => initial_data now
  | .corrupt => initial_data now
  | .dataFile d =>
      { users := d.users, system := d.system,
        global_stats := d.global_stats.getD { ar_downloads := 0, en_downloads := 0 } }

/-- save_data embeds src/main.py lines 119-122: overwrite the file with the
JSON dump of the store; every key, global_stats included, is written. -/
def save_data (s : Store) : PersistedFile :=
  .dataFile { users := s.users, system := s.system, global_stats := some s.global_stats }

/-- get_user_lang embeds src/main.py lines 124-127: the stored language of
the user, or the default en when the user is unknown. It returns only a
string and touches no store, so it is side-effect-free by construction. -/
def get_user_lang (s : Store) (uid : Nat) : String :=
  match usersFind s.users uid with
  | some r => r.lang
  | none => "en"

/-- updateLang rewrites the language of the entry keyed uid, leaving every
other field and every other entry in place (src/main.py line 139). -/
def updateLang (xs : Users) (uid : Nat) (lang : String) : Users :=
  xs.map (fun p => if p.1 = uid then (p.1, { p.2 with lang := lang }) else p)

/-- set_user_lang embeds src/main.py lines 129-140: an unknown user gets a
new record with first_seen = now, the given language and a zero download
count, appended at the end as a Python dict insert; a known user has only
the lang field rewritten. -/
def set_user_lang (s : Store) (uid : Nat) (lang : String) (now : Nat) : Store :=
  match usersFind s.users uid with
  | none =>
      { s with users :=
          s.users ++ [(uid, { first_seen := now, lang := lang, download_count := 0 })] }
  | some _ => { s with users := updateLang s.users uid lang }

/-- bumpGlobal embeds src/main.py lines 225-228: the ar counter is bumped
when the language is ar, the en counter when it is en, nothing otherwise. -/
def bumpGlobal (gs : GlobalStats) (lang : String) : GlobalStats :=
  if lang = "ar" then { gs with ar_downloads := gs.ar_downloads + 1 }
  else if lang = "en" then { gs with en_downloads := gs.en_downloads + 1 }
  else gs

/-- updateCount bumps the download count of the entry keyed uid, leaving
every other field and entry in place (src/main.py line 232). -/
def updateCount (xs : Users) (uid : Nat) : Users :=
  xs.map (fun p =>
    if p.1 = uid then (p.1, { p.2 with download_count := p.2.download_count + 1 }) else p)

/-- record_download embeds the statistics update block of download_media
(src/main.py lines 224-234): the global counter for the request language
is bumped unconditionally, the user counter only when the user id is
already a key of the users mapping. -/
def record_download (s : Store) (uid : Nat) (lang : String) : Store :=
  { s with
    users :=
      match usersFind s.users uid with
      | some _ => updateCount s.users uid
      | none => s.users,
    global_stats := bumpGlobal s.global_stats lang }

/-- downloadSum is the sum of the download counters over the users mapping,
as stats_command computes total_downloads (src/main.py line 259). -/
def downloadSum : Users → Nat
  | [] => 0
  | (_, r) :: rest => r.download_count + downloadSum rest

/-- globalSum is the sum of the per-language global counters. -/
def globalSum (gs : GlobalStats) : Nat :=
  gs.ar_downloads + gs.en_downloads

/-- Totals is the triple stats_command derives from a store snapshot. -/
structure Totals where
  total_users : Nat
  total_downloads : Nat
  downloads_by_language : GlobalStats
deriving DecidableEq

/-- compute_totals embeds the aggregation of stats_command
(src/main.py lines 253-259): a pure read of a store snapshot. -/
def compute_totals (s : Store) : Totals :=
  { total_users := s.users.length,
    total_downloads := downloadSum s.users,
    downloads_by_language := s.global_stats }

/-- Op enumerates the two store mutations of the claims: set_language and
record_download. In download_media the language passed to the statistics
block is get_user_lang of the caller, a string like any other here. -/
inductive Op where
  | setLang (uid : Nat) (lang : String) (now : Nat)
  | recDownload (uid : Nat) (lang : String)
deriving DecidableEq

/-- applyOp runs one operation against a store. -/
def applyOp (s : Store) : Op → Store
  | .setLang uid lang now => set_user_lang s uid lang now
  | .recDownload uid lang => record_download s uid lang

/-- applyOps runs a sequence of operations in order. -/
def applyOps (s : Store) (ops : List Op) : Store :=
  ops.foldl applyOp s

/-- ReachableStore holds of the stores produced from the default store by
some sequence of set_language and record_download operations. -/
def ReachableStore (s : Store) : Prop :=
  ∃ now ops, applyOps (initial_data now) ops = s

/-- isSetLangFor tells whether an operation is a set_language on uid. -/
def isSetLangFor (uid : Nat) : Op → Bool
  | .setLang u _ _ => u == uid
  | .recDownload _ _ => false

/-- BroadcastResult is the pair of counters broadcast_command reports. -/
structure BroadcastResult where
  sent : Nat
  failed : Nat
deriving DecidableEq

/-- notifyStep is one iteration of the broadcast loop: a successful send
bumps sent, a failing send is caught and bumps failed
(src/main.py lines 295-302). -/
def notifyStep (sender : Nat → Bool) (acc : BroadcastResult) (uid : Nat) : BroadcastResult :=
  if sender uid then { acc with sent := acc.sent + 1 }
  else { acc with failed := acc.failed + 1 }

/-- notify_all embeds the broadcast loop of broadcast_command
(src/main.py lines 289-306); the injected sender stands for the telegram
send call, true meaning success. The loop body catches any per-recipient
failure, so notify_all is a total function: no exception escapes. -/
def notify_all (ids : List Nat) (sender : Nat → Bool) : BroadcastResult :=
  ids.foldl (notifyStep sender) { sent := 0, failed := 0 }

/-- ExtractOutcome is the oracle for the external extraction call of
download_media: success (with the info duration hint and whether the
output file was produced), an exception, or task cancellation; in the two
failure cases the flag records whether a file was left on disk when the
flow of control reached the finally block. -/
inductive ExtractOutcome where
  | ok (fileCreated : Bool) (duration : Nat)
  | extractError (fileCreated : Bool)
  | cancelled (fileCreated : Bool)
deriving DecidableEq

/-- MediaResult is the observable outcome of one download_media run: does
the temporary file still exist once the handler finishes, and what is on
disk as the persisted store. -/
structure MediaResult where
  tempFileExists : Bool
  persisted : PersistedFile
deriving DecidableEq

/-- cleanupTemp embeds the finally block of download_media
(src/main.py lines 240-245): remove the file when it exists. -/
def cleanupTemp (b : Bool) : Bool :=
  if b then false else b

/-- download_media embeds the handler of src/main.py lines 173-245 at the
granularity the claims need. The request language is get_user_lang of the
caller (line 179). On success with an output file present, the statistics
block runs (load, bump counters, save, lines 224-234); when extraction
produced no file the if block at line 204 is skipped and nothing is
saved; on an exception the except branch at line 236 skips the save; on
cancellation the body is abandoned. The finally block runs on every one
of these paths. -/
def download_media (persisted : PersistedFile) (uid : Nat)
    (outcome : ExtractOutcome) (now : Nat) : MediaResult :=
  let lang := get_user_lang (load_data persisted now) uid
  match outcome with
  | .ok created _ =>
      if created then
        { tempFileExists := cleanupTemp true,
          persisted := save_data (record_download (load_data persisted now) uid lang) }
      else
        { tempFileExists := cleanupTemp false, persisted := persisted }
  | .extractError created =>
      { tempFileExists := cleanupTemp created, persisted := persisted }
  | .cancelled created =>
      { tempFileExists := cleanupTemp created, persisted := persisted }

/-! Helper lemmas on the association-list lookup. -/

theorem usersFind_append_of_none {xs : Users} {uid : Nat}
    (h : usersFind xs uid = none) (ys : Users) :
    usersFind (xs ++ ys) uid = usersFind ys uid := by
  induction xs with
  | nil => rfl
  | cons p rest ih =>
      obtain ⟨k, r⟩ := p
      by_cases hk : k = uid
      · simp [usersFind, hk] at h
      · simp [usersFind, hk] at h ⊢
        exact ih h

theorem usersFind_append_of_some {xs : Users} {uid : Nat} {r : UserRecord}
    (h : usersFind xs uid = some r) (ys : Users) :
    usersFind (xs ++ ys) uid = some r := by
  induction xs with
  | nil => simp [usersFind] at h
  | cons p rest ih =>
      obtain ⟨k, v⟩ := p
      by_cases hk : k = uid
      · simp [usersFind, hk] at h ⊢
        exact h
      · simp [usersFind, hk] at h ⊢
        exact ih h

theorem usersFind_cons (k : Nat) (r : UserRecord) (rest : Users) (uid : Nat) :
    usersFind ((k, r) :: rest) uid = if k = uid then some r else usersFind rest uid :=
  rfl

theorem updateLang_cons (k : Nat) (r : UserRecord) (rest : Users) (uid : Nat) (lang : String) :
    updateLang ((k, r) :: rest) uid lang =
      (if k = uid then (k, { r with lang := lang }) else (k, r)) :: updateLang rest uid lang := by
  by_cases hk : k = uid
  · simp only [updateLang, List.map_cons, if_pos hk]
  · simp only [updateLang, List.map_cons, if_neg hk]

theorem updateCount_cons (k : Nat) (r : UserRecord) (rest : Users) (uid : Nat) :
    updateCount ((k, r) :: rest) uid =
      (if k = uid then (k, { r with download_count := r.download_count + 1 }) else (k, r))
        :: updateCount rest uid := by
  by_cases hk : k = uid
  · simp only [updateCount, List.map_cons, if_pos hk]
  · simp only [updateCount, List.map_cons, if_neg hk]

theorem usersFind_updateLang_self (xs : Users) (uid : Nat) (lang : String) :
    usersFind (updateLang xs uid lang) uid =
      (usersFind xs uid).map (fun r => { r with lang := lang }) := by
  induction xs with
  | nil => rfl
  | cons p rest ih =>
      obtain ⟨k, r⟩ := p
      rw [updateLang_cons]
      by_cases hk : k = uid
      · rw [if_pos hk, usersFind_cons, if_pos hk, usersFind_cons, if_pos hk]
        rfl
      · rw [if_neg hk, usersFind_cons, if_neg hk, usersFind_cons, if_neg hk]
        exact ih

theorem usersFind_updateLang_other (xs : Users) (uid v : Nat) (lang : String)
    (hv : v ≠ uid) :
    usersFind (updateLang xs uid lang) v = usersFind xs v := by
  induction xs with
  | nil => rfl
  | cons p rest ih =>
      obtain ⟨k, r⟩ := p
      rw [updateLang_cons]
      by_cases hk : k = uid
      · have hkv : ¬ k = v := fun h => hv (h ▸ hk)
        rw [if_pos hk, usersFind_cons, if_neg hkv, usersFind_cons, if_neg hkv]
        exact ih
      · by_cases hkv : k = v
        · rw [if_neg hk, usersFind_cons, if_pos hkv, usersFind_cons, if_pos hkv]
        · rw [if_neg hk, usersFind_cons, if_neg hkv, usersFind_cons, if_neg hkv]
          exact ih

theorem usersFind_updateCount_self (xs : Users) (uid : Nat) :
    usersFind (updateCount xs uid) uid =
      (usersFind xs uid).map (fun r => { r with download_count := r.download_count + 1 }) := by
  induction xs with
  | nil => rfl
  | cons p rest ih =>
      obtain ⟨k, r⟩ := p
      rw [updateCount_cons]
      by_cases hk : k = uid
      · rw [if_pos hk, usersFind_cons, if_pos hk, usersFind_cons, if_pos hk]
        rfl
      · rw [if_neg hk, usersFind_cons, if_neg hk, usersFind_cons, if_neg hk]
        exact ih

theorem usersFind_updateCount_other (xs : Users) (uid v : Nat)
    (hv : v ≠ uid) :
    usersFind (updateCount xs uid) v = usersFind xs v := by
  induction xs with
  | nil => rfl
  | cons p rest ih =>
      obtain ⟨k, r⟩ := p
      rw [updateCount_cons]
      by_cases hk : k = uid
      · have hkv : ¬ k = v := fun h => hv (h ▸ hk)
        rw [if_pos hk, usersFind_cons, if_neg hkv, usersFind_cons, if_neg hkv]
        exact ih
      · by_cases hkv : k = v
        · rw [if_neg hk, usersFind_cons, if_pos hkv, usersFind_cons, if_pos hkv]
        · rw [if_neg hk, usersFind_cons, if_neg hkv, usersFind_cons, if_neg hkv]
          exact ih

/-- An operation that is not a set_language on uid never creates an entry
for uid: record_download only rewrites existing entries, and set_language
on another user appends a differently keyed entry. -/
theorem usersFind_applyOp_none {s : Store} {uid : Nat} {op : Op}
    (hop : isSetLangFor uid op = false)
    (h : usersFind s.users uid = none) :
    usersFind (applyOp s op).users uid = none := by
  cases op with
  | setLang u l n =>
      have hu : u ≠ uid := by
        simpa [isSetLangFor] using hop
      cases hfind : usersFind s.users u with
      | none =>
          simp [applyOp, set_user_lang, hfind]
          rw [usersFind_append_of_none h]
          simp [usersFind, hu]
      | some r =>
          simp [applyOp, set_user_lang, hfind]
          rw [usersFind_updateLang_other _ _ _ _ (fun hh => hu hh.symm)]
          exact h
  | recDownload u l =>
      cases hfind : usersFind s.users u with
      | none => simpa [applyOp, record_download, hfind] using h
      | some r =>
          simp [applyOp, record_download, hfind]
          by_cases huv : uid = u
          · subst huv
            rw [usersFind_updateCount_self]
            simp [h]
          · rw [usersFind_updateCount_other _ _ _ huv]
            exact h

/-- A sequence of operations none of which is a set_language on uid keeps
uid absent from the users mapping. -/
theorem usersFind_applyOps_none {uid : Nat} (ops : List Op) (s : Store)
    (hops : ∀ op ∈ ops, isSetLangFor uid op = false)
    (h : usersFind s.users uid = none) :
    usersFind (applyOps s ops).users uid = none := by
  induction ops generalizing s with
  | nil => exact h
  | cons op rest ih =>
      have h1 : usersFind (applyOp s op).users uid = none :=
        usersFind_applyOp_none (hops op (by simp)) h
      have hrest : ∀ op2 ∈ rest, isSetLangFor uid op2 = false := by
        intro op2 hmem
        exact hops op2 (by simp [hmem])
      exact ih (applyOp s op) hrest h1

/-! Step equations for the two mutating operations. -/

theorem set_user_lang_of_none {s : Store} {uid : Nat}
    (h : usersFind s.users uid = none) (lang : String) (now : Nat) :
    set_user_lang s uid lang now =
      { s with users :=
          s.users ++ [(uid, { first_seen := now, lang := lang, download_count := 0 })] } := by
  unfold set_user_lang
  rw [h]

theorem set_user_lang_of_some {s : Store} {uid : Nat} {r : UserRecord}
    (h : usersFind s.users uid = some r) (lang : String) (now : Nat) :
    set_user_lang s uid lang now = { s with users := updateLang s.users uid lang } := by
  unfold set_user_lang
  rw [h]

theorem record_download_of_none {s : Store} {uid : Nat}
    (h : usersFind s.users uid = none) (lang : String) :
    record_download s uid lang = { s with global_stats := bumpGlobal s.global_stats lang } := by
  unfold record_download
  rw [h]

theorem record_download_of_some {s : Store} {uid : Nat} {r : UserRecord}
    (h : usersFind s.users uid = some r) (lang : String) :
    record_download s uid lang =
      { s with users := updateCount s.users uid,
               global_stats := bumpGlobal s.global_stats lang } := by
  unfold record_download
  rw [h]

/-! Claim theorems. -/

/-- C1: the claimed invariant, that in every reachable store the sum of the
user download counters equals the sum of the global per-language counters,
fails on the code. The store reached from the default store by the single
operation record_download(42, en), where en is exactly the language the
code derives for the unknown user 42 at src/main.py line 179, has global
counter sum 1 while the user counter sum is 0: download_media bumps the
global counter without any user counter when the user id is absent. -/
theorem c1_counter_sums_diverge :
    ReachableStore (record_download (initial_data 0) 42 "en") ∧
    get_user_lang (initial_data 0) 42 = "en" ∧
    downloadSum (record_download (initial_data 0) 42 "en").users = 0 ∧
    globalSum (record_download (initial_data 0) 42 "en").global_stats = 1 :=
  ⟨⟨0, [Op.recDownload 42 "en"], rfl⟩, rfl, by decide, by decide⟩

/-- C2 as stated is false at a concrete input: user 42 is absent from the
default store, yet record_download(42, en) does not leave the store
unchanged; it bumps the global en counter to 1. -/
theorem c2_counterexample :
    usersFind (initial_data 0).users 42 = none ∧
    (record_download (initial_data 0) 42 "en").global_stats.en_downloads = 1 ∧
    record_download (initial_data 0) 42 "en" ≠ initial_data 0 :=
  ⟨rfl, by decide, by decide⟩

/-- C2 amended: for a user_id absent from the users mapping,
record_download creates no UserRecord and leaves the users mapping and the
system block unchanged, but it still increments the global counter of the
given language: ar_downloads gains one exactly when the language is ar and
en_downloads gains one exactly when it is en; no logging happens on this
path in the code. -/
theorem c2_record_download_unknown (s : Store) (uid : Nat) (lang : String)
    (h : usersFind s.users uid = none) :
    (record_download s uid lang).users = s.users ∧
    (record_download s uid lang).system = s.system ∧
    (record_download s uid lang).global_stats.ar_downloads =
      s.global_stats.ar_downloads + (if lang = "ar" then 1 else 0) ∧
    (record_download s uid lang).global_stats.en_downloads =
      s.global_stats.en_downloads + (if lang = "en" then 1 else 0) := by
  rw [record_download_of_none h lang]
  refine ⟨rfl, rfl, ?_, ?_⟩
  · by_cases ha : lang = "ar"
    · simp [bumpGlobal, ha]
    · by_cases he : lang = "en" <;> simp [bumpGlobal, ha, he]
  · by_cases ha : lang = "ar"
    · simp [bumpGlobal, ha]
    · by_cases he : lang = "en" <;> simp [bumpGlobal, ha, he]

/-- C2 amended, witness at the concrete input of the counterexample. -/
theorem c2_record_download_unknown_witness :
    (record_download (initial_data 0) 7 "ar").users = (initial_data 0).users ∧
    (record_download (initial_data 0) 7 "ar").system = (initial_data 0).system ∧
    (record_download (initial_data 0) 7 "ar").global_stats.ar_downloads =
      (initial_data 0).global_stats.ar_downloads + (if ("ar" : String) = "ar" then 1 else 0) ∧
    (record_download (initial_data 0) 7 "ar").global_stats.en_downloads =
      (initial_data 0).global_stats.en_downloads + (if ("ar" : String) = "en" then 1 else 0) :=
  c2_record_download_unknown (initial_data 0) 7 "ar" rfl

/-- C3: loading the file written by save_data gives back exactly the store
that was saved, for every store and hence for every reachable one; the
fallback timestamp plays no role because the saved file is present and
decodable and carries the global_stats key. -/
theorem c3_load_save_roundtrip (s : Store) (now : Nat) :
    load_data (save_data s) now = s :=
  rfl

/-- C4: on an absent file load_data returns the fresh default store, a
corrupt file is handled identically to an absent one, and the default
store has an empty users mapping, version 3.1, start_date equal to the
current timestamp, and both global counters zero. load_data is a total
function here, mirroring that the two failure modes are caught. -/
theorem c4_load_missing_or_corrupt (now : Nat) :
    load_data PersistedFile.missing now = initial_data now ∧
    load_data PersistedFile.corrupt now = load_data PersistedFile.missing now ∧
    (initial_data now).users = [] ∧
    (initial_data now).system.version = "3.1" ∧
    (initial_data now).system.start_date = now ∧
    (initial_data now).global_stats.ar_downloads = 0 ∧
    (initial_data now).global_stats.en_downloads = 0 :=
  ⟨rfl, rfl, rfl, rfl, rfl, rfl, rfl⟩

/-- C5: the first set_user_lang on an unknown uid creates its record with
first_seen = t1, the given language and a zero download count; a second
set_user_lang on the now known uid rewrites only the language, keeping
first_seen = t1 and download_count = 0; and the record of any other user v
is untouched by both calls. -/
theorem c5_set_language (s : Store) (uid v : Nat) (L L2 : String) (t1 t2 : Nat)
    (h : usersFind s.users uid = none) (hv : v ≠ uid) :
    usersFind (set_user_lang s uid L t1).users uid =
      some { first_seen := t1, lang := L, download_count := 0 } ∧
    usersFind (set_user_lang (set_user_lang s uid L t1) uid L2 t2).users uid =
      some { first_seen := t1, lang := L2, download_count := 0 } ∧
    usersFind (set_user_lang s uid L t1).users v = usersFind s.users v ∧
    usersFind (set_user_lang (set_user_lang s uid L t1) uid L2 t2).users v =
      usersFind s.users v := by
  have huv : ¬ uid = v := fun hh => hv hh.symm
  have hrec1 : usersFind (set_user_lang s uid L t1).users uid =
      some { first_seen := t1, lang := L, download_count := 0 } := by
    rw [set_user_lang_of_none h L t1]
    show usersFind
      (s.users ++ [(uid, { first_seen := t1, lang := L, download_count := 0 })]) uid = _
    rw [usersFind_append_of_none h, usersFind_cons, if_pos rfl]
  have hstep2 := set_user_lang_of_some hrec1 L2 t2
  have hrec2 : usersFind (set_user_lang (set_user_lang s uid L t1) uid L2 t2).users uid =
      some { first_seen := t1, lang := L2, download_count := 0 } := by
    rw [hstep2]
    show usersFind (updateLang (set_user_lang s uid L t1).users uid L2) uid = _
    rw [usersFind_updateLang_self, hrec1]
    rfl
  have hframe1 : usersFind (set_user_lang s uid L t1).users v = usersFind s.users v := by
    rw [set_user_lang_of_none h L t1]
    show usersFind
      (s.users ++ [(uid, { first_seen := t1, lang := L, download_count := 0 })]) v = _
    cases hfv : usersFind s.users v with
    | none =>
        rw [usersFind_append_of_none hfv, usersFind_cons, if_neg huv]
        rfl
    | some r => rw [usersFind_append_of_some hfv]
  have hframe2 : usersFind (set_user_lang (set_user_lang s uid L t1) uid L2 t2).users v =
      usersFind s.users v := by
    rw [hstep2]
    show usersFind (updateLang (set_user_lang s uid L t1).users uid L2) v = _
    rw [usersFind_updateLang_other _ _ _ _ hv, hframe1]
  exact ⟨hrec1, hrec2, hframe1, hframe2⟩

/-- C5, witness: user 42 set to en at time 3 and then to ar at time 5,
with user 7 as the untouched bystander. -/
theorem c5_set_language_witness :
    usersFind (set_user_lang (initial_data 0) 42 "en" 3).users 42 =
      some { first_seen := 3, lang := "en", download_count := 0 } ∧
    usersFind (set_user_lang (set_user_lang (initial_data 0) 42 "en" 3) 42 "ar" 5).users 42 =
      some { first_seen := 3, lang := "ar", download_count := 0 } ∧
    usersFind (set_user_lang (initial_data 0) 42 "en" 3).users 7 =
      usersFind (initial_data 0).users 7 ∧
    usersFind (set_user_lang (set_user_lang (initial_data 0) 42 "en" 3) 42 "ar" 5).users 7 =
      usersFind (initial_data 0).users 7 :=
  c5_set_language (initial_data 0) 42 7 "en" "ar" 3 5 rfl (by decide)

/-- C6: a user id that is never the target of a set_language operation in a
run from the default store stays absent, so get_user_lang returns the
default en for it; and for any user present in the mapping get_user_lang
returns the stored language. get_user_lang returns a string and no store,
so it cannot mutate the store. -/
theorem c6_get_language (now : Nat) (ops : List Op) (uid : Nat)
    (h : ∀ op ∈ ops, isSetLangFor uid op = false) :
    get_user_lang (applyOps (initial_data now) ops) uid = "en" ∧
    ∀ (s : Store) (r : UserRecord),
      usersFind s.users uid = some r → get_user_lang s uid = r.lang := by
  constructor
  · have hn : usersFind (applyOps (initial_data now) ops).users uid = none :=
      usersFind_applyOps_none ops (initial_data now) h rfl
    unfold get_user_lang
    rw [hn]
  · intro s r hr
    unfold get_user_lang
    rw [hr]

/-- C6, witness: user 42 never targeted by set_language across a run that
touches user 7 only, and a store where user 42 holds language fr. -/
theorem c6_get_language_witness :
    get_user_lang (applyOps (initial_data 0) [Op.setLang 7 "ar" 1, Op.recDownload 7 "ar"]) 42
      = "en" ∧
    get_user_lang (set_user_lang (initial_data 0) 42 "fr" 2) 42 = "fr" :=
  ⟨(c6_get_language 0 [Op.setLang 7 "ar" 1, Op.recDownload 7 "ar"] 42 (by decide)).1,
   (c6_get_language 0 [] 42 (by simp)).2 (set_user_lang (initial_data 0) 42 "fr" 2)
     { first_seen := 2, lang := "fr", download_count := 0 } (by decide)⟩

/-- C7: compute_totals is a pure read giving the number of user records and
the sum of their download counters, and the scenario holds: from the empty
default store, set_language(42, en) then record_download(42, en) makes
compute_totals return one user, one download, and global counters en = 1,
ar = 0, whatever the two timestamps were. -/
theorem c7_compute_totals (t0 t1 : Nat) :
    (∀ s : Store, (compute_totals s).total_users = s.users.length ∧
        (compute_totals s).total_downloads = downloadSum s.users) ∧
    compute_totals (record_download (set_user_lang (initial_data t0) 42 "en" t1) 42 "en") =
      { total_users := 1, total_downloads := 1,
        downloads_by_language := { ar_downloads := 0, en_downloads := 1 } } :=
  ⟨fun s => ⟨rfl, rfl⟩, rfl⟩

/-- C8: the broadcast loop calls the sender once per id, counting a success
in sent and a caught failure in failed, so sent is the number of ids the
sender accepts, failed the number it rejects, and sent plus failed is the
length of the id list; notify_all is a total function, so no per-recipient
failure escapes the batch; and the scenario holds: ids 1, 2, 3 with the
sender failing exactly on 2 gives sent 2 and failed 1. -/
theorem c8_notify_all (ids : List Nat) (sender : Nat → Bool) :
    (notify_all ids sender).sent = ids.countP sender ∧
    (notify_all ids sender).failed = ids.countP (fun i => !(sender i)) ∧
    (notify_all ids sender).sent + (notify_all ids sender).failed = ids.length ∧
    notify_all [1, 2, 3] (fun i => i != 2) = { sent := 2, failed := 1 } := by
  have hfold : ∀ (l : List Nat) (acc : BroadcastResult),
      l.foldl (notifyStep sender) acc =
        { sent := acc.sent + l.countP sender,
          failed := acc.failed + l.countP (fun i => !(sender i)) } := by
    intro l
    induction l with
    | nil => intro acc; simp
    | cons i rest ih =>
        intro acc
        rw [List.foldl_cons, ih]
        cases hi : sender i <;>
          simp [notifyStep, hi, List.countP_cons] <;> omega
  have hlen : ids.countP sender + ids.countP (fun i => !(sender i)) = ids.length := by
    induction ids with
    | nil => rfl
    | cons i rest ih =>
        cases hi : sender i <;> simp [List.countP_cons, hi] <;> omega
  have h1 : notify_all ids sender =
      { sent := ids.countP sender, failed := ids.countP (fun i => !(sender i)) } := by
    unfold notify_all
    rw [hfold]
    simp
  refine ⟨by rw [h1], by rw [h1], ?_, by decide⟩
  rw [h1]
  exact hlen

/-- C9: on every exit path of download_media, success with or without an
output file, extraction exception, or cancellation, the finally block
leaves no temporary file behind. -/
theorem c9_temp_file_removed (persisted : PersistedFile) (uid : Nat)
    (outcome : ExtractOutcome) (now : Nat) :
    (download_media persisted uid outcome now).tempFileExists = false := by
  cases outcome with
  | ok created dur => cases created <;> rfl
  | extractError created => cases created <;> rfl
  | cancelled created => cases created <;> rfl

/-- C10: when extraction raises or produces no output file, download_media
never reaches the save call, so the persisted store is byte for byte the
one from before the operation. -/
theorem c10_no_save_on_failure (persisted : PersistedFile) (uid : Nat) (now : Nat)
    (created : Bool) (dur : Nat) :
    (download_media persisted uid (ExtractOutcome.extractError created) now).persisted
      = persisted ∧
    (download_media persisted uid (ExtractOutcome.ok false dur) now).persisted = persisted :=
  ⟨rfl, rfl⟩

end BotStore
